import Mathlib

/-
Shallow embedding of src/temperature_control.py (omae26/buni-training2025):
a threshold-based temperature control loop driving a relay and an LED from
DHT22 sensor readings.  Hardware effects (relay toggles, LED writes) are
modelled as explicit event lists; the sensor transaction is modelled as an
oracle value of type `Except String (Option ℚ × Option ℚ)` standing for the
outcome of one `dht_sensor.read()` call (an exception, or a pair of possibly
missing values).  Temperatures are exact rationals.
-/

namespace TemperatureControl

/-- Temperature trigger point in °C (source line 33: `TEMPERATURE_THRESHOLD = 30.0`). -/
def TEMPERATURE_THRESHOLD : ℚ := 30

/-- LED on state value (source line 27). -/
def ON_STATE : ℕ := 1

/-- LED off state value (source line 28). -/
def OFF_STATE : ℕ := 0

/-- Hardware commands the program can issue: a relay toggle on the PCF8574
expander, or a write of a level to the LED pin. -/
inductive Event
  | relayToggle
  | ledSet (v : ℕ)
deriving DecidableEq, Repr

/-- Source lines 52-56: `blink_led(led_state)` writes `led_state` to the LED pin. -/
def blink_led (led_state : ℕ) : Event := Event.ledSet led_state

/-- Source lines 81-107: `control_relay_based_on_temperature(temperature)`.
Takes the global `current_relay_state` explicitly and returns the updated flag
together with the list of hardware events issued during the call. -/
def control_relay_based_on_temperature (current_relay_state : Bool) (temperature : ℚ) :
    Bool × List Event :=
  if temperature > TEMPERATURE_THRESHOLD then
    if !current_relay_state then
      (true, [Event.relayToggle, blink_led ON_STATE])
    else
      (current_relay_state, [])
  else
    if current_relay_state then
      (false, [Event.relayToggle, blink_led OFF_STATE])
    else
      (current_relay_state, [])

/-- The event list of an ON command: relay toggled on plus LED driven high
(source lines 93-97). -/
def onCommand : List Event := [Event.relayToggle, blink_led ON_STATE]

/-- The event list of an OFF command: relay toggled off plus LED driven low
(source lines 103-107). -/
def offCommand : List Event := [Event.relayToggle, blink_led OFF_STATE]

/-- Commands issued by successive calls of `control_relay_based_on_temperature`
on a stream of successful readings, threading the `current_relay_state` flag:
one (possibly empty) event list per cycle. -/
def runControl : Bool → List ℚ → List (List Event)
  | _, [] => []
  | s, t :: ts =>
      (control_relay_based_on_temperature s t).2 ::
        runControl (control_relay_based_on_temperature s t).1 ts

/-- The value of the `current_relay_state` flag after feeding a stream of
readings to the controller. -/
def finalState : Bool → List ℚ → Bool
  | s, [] => s
  | s, t :: ts => finalState (control_relay_based_on_temperature s t).1 ts

/-- Python's round-half-to-even on a rational, as used by `round(x, ndigits)`:
the nearest integer, ties going to the even one. -/
def round_half_even (x : ℚ) : ℤ :=
  if x - ⌊x⌋ < 1 / 2 then ⌊x⌋
  else if 1 / 2 < x - ⌊x⌋ then ⌊x⌋ + 1
  else if ⌊x⌋ % 2 = 0 then ⌊x⌋ else ⌊x⌋ + 1

/-- Python's `round(x, 1)`: round to one decimal place (source line 73). -/
def pyRound1 (x : ℚ) : ℚ := (round_half_even (x * 10) : ℚ) / 10

/-- Outcome of one `dht_sensor.read()` transaction: an exception carrying a
message, or a `(temperature, humidity)` pair in which either value may be
missing (the DHT22 driver returns `None` on failure). -/
abbrev DhtResult := Except String (Option ℚ × Option ℚ)

/-- Source lines 59-78: `read_temperature()`.  Performs one sensor transaction
(whose outcome is the argument); returns `none` if the transaction raised or
the temperature was missing, otherwise the temperature rounded to 1 decimal. -/
def read_temperature (r : DhtResult) : Option ℚ :=
  match r with
  | Except.error _ => none
  | Except.ok (none, _) => none
  | Except.ok (some temperature, _) => some (pyRound1 temperature)

/-- What one cycle reports on the console: the failure path ("Retrying sensor
reading...", source line 167) or the `display_status` block (source lines
110-135) showing temperature, humidity, threshold and relay status. -/
inductive Report
  | failure
  | status (temperature humidity threshold : ℚ) (relay_state : Bool)
deriving DecidableEq, Repr

/-- Source lines 150-170: the body of one iteration of the main control loop.
`r1` is the outcome of the sensor transaction inside `read_temperature`
(line 155); `r2` is the outcome of the second transaction
`dht_sensor.read()` on line 159, performed only when the first yielded a
temperature.  Returns the updated relay flag, the hardware events issued and
the report for the cycle — or `Except.error` when an exception escapes the
loop body (the second read raising, or `round(None, 1)` raising `TypeError`
when the second read returns no humidity). -/
def main_cycle (current_relay_state : Bool) (r1 r2 : DhtResult) :
    Except String (Bool × List Event × Report) :=
  match read_temperature r1 with
  | some temperature =>
      match r2 with
      | Except.error e => Except.error e
      | Except.ok (_, none) => Except.error "TypeError"
      | Except.ok (_, some h) =>
          Except.ok ((control_relay_based_on_temperature current_relay_state temperature).1,
            (control_relay_based_on_temperature current_relay_state temperature).2,
            Report.status temperature (pyRound1 h) TEMPERATURE_THRESHOLD
              (control_relay_based_on_temperature current_relay_state temperature).1)
  | none => Except.ok (current_relay_state, [], Report.failure)

/-- Number of `dht_sensor.read()` transactions one loop iteration performs:
one inside `read_temperature` (line 65), and a second on line 159 exactly when
the first yielded a temperature. -/
def cycle_sensor_reads (r1 : DhtResult) : ℕ :=
  match read_temperature r1 with
  | some _ => 2
  | none => 1

/-- Source lines 176-180: the startup block.  `current_relay_state` is the
value of the global flag when the block runs (initialised to `False` on source
line 47); the relay is toggled only when the flag is `True`. -/
def startup (current_relay_state : Bool) : Bool × List Event :=
  if current_relay_state then
    (false, [Event.relayToggle])
  else
    (current_relay_state, [])

/-- Source lines 184-190: the `KeyboardInterrupt` handler.  Returns the
hardware events issued before the program exits: the relay is toggled only
when the flag is `True`. -/
def shutdown_on_interrupt (current_relay_state : Bool) : List Event :=
  if current_relay_state then [Event.relayToggle] else []

/-- The non-empty command event lists a program run issues, in order: first
whatever the startup block issues from the initial flag value `false`
(source line 47), then the commands of the control cycles on the given
stream of successful readings. -/
def issuedCommands (ts : List ℚ) : List (List Event) :=
  ((startup false).2 :: runControl (startup false).1 ts).filter (fun c => c ≠ [])

/-- Effect of a list of hardware events on the physical relay coil state and
the count of toggle commands issued: each `relayToggle` inverts the coil,
LED writes touch neither. -/
def applyEvents : Bool → ℕ → List Event → Bool × ℕ
  | p, c, [] => (p, c)
  | p, c, Event.relayToggle :: es => applyEvents (!p) (c + 1) es
  | p, c, Event.ledSet _ :: es => applyEvents p c es

/-- Runs the controller on a stream of readings while also tracking the
physical relay coil state and the number of toggle commands issued:
returns (flag, coil, toggle count). -/
def runPhysical : Bool → Bool → ℕ → List ℚ → Bool × Bool × ℕ
  | s, p, c, [] => (s, p, c)
  | s, p, c, t :: ts =>
      runPhysical (control_relay_based_on_temperature s t).1
        (applyEvents p c (control_relay_based_on_temperature s t).2).1
        (applyEvents p c (control_relay_based_on_temperature s t).2).2 ts

/-! ### Helper lemmas -/

/-- One controller call leaves the flag at `decide (t > θ)` and issues a
command exactly when the flag changes. -/
theorem control_step_shape (s : Bool) (t : ℚ) :
    control_relay_based_on_temperature s t =
      (decide (t > TEMPERATURE_THRESHOLD),
       if s = decide (t > TEMPERATURE_THRESHOLD) then []
       else if t > TEMPERATURE_THRESHOLD then onCommand else offCommand) := by
  by_cases h : t > TEMPERATURE_THRESHOLD <;> cases s <;>
    simp [control_relay_based_on_temperature, h, onCommand, offCommand, blink_led]

theorem finalState_take_succ :
    ∀ (ts : List ℚ) (s : Bool) (i : ℕ), i < ts.length →
      finalState s (ts.take (i + 1)) = decide (ts.getD i 0 > TEMPERATURE_THRESHOLD) := by
  intro ts
  induction ts with
  | nil => intro s i h; simp at h
  | cons t ts ih =>
      intro s i h
      cases i with
      | zero =>
          have h1 : (control_relay_based_on_temperature s t).1 =
              decide (t > TEMPERATURE_THRESHOLD) := by rw [control_step_shape]
          simpa [finalState] using h1
      | succ i =>
          have h' : i < ts.length := by simpa using Nat.lt_of_succ_lt_succ h
          simpa [finalState] using ih (control_relay_based_on_temperature s t).1 i h'

theorem runControl_getD :
    ∀ (ts : List ℚ) (s : Bool) (i : ℕ), i < ts.length →
      (runControl s ts).getD i [] =
        (control_relay_based_on_temperature (finalState s (ts.take i)) (ts.getD i 0)).2 := by
  intro ts
  induction ts with
  | nil => intro s i h; simp at h
  | cons t ts ih =>
      intro s i h
      cases i with
      | zero => simp [runControl, finalState]
      | succ i =>
          have h' : i < ts.length := by simpa using Nat.lt_of_succ_lt_succ h
          simpa [runControl, finalState] using
            ih (control_relay_based_on_temperature s t).1 i h'

theorem runPhysical_spec :
    ∀ (ts : List ℚ) (s p : Bool) (c : ℕ),
      (runPhysical s p c ts).1 = finalState s ts ∧
      (runPhysical s p c ts).2.1 = xor p (xor s (finalState s ts)) ∧
      (runPhysical s p c ts).2.2 % 2 =
        (c + (if xor s (finalState s ts) then 1 else 0)) % 2 := by
  intro ts
  induction ts with
  | nil => intro s p c; simp [runPhysical, finalState]
  | cons t ts ih =>
      intro s p c
      by_cases hst : s = decide (t > TEMPERATURE_THRESHOLD)
      · have hc : control_relay_based_on_temperature s t = (s, []) := by
          rw [control_step_shape]
          simp [← hst]
        have hrun : runPhysical s p c (t :: ts) = runPhysical s p c ts := by
          simp [runPhysical, hc, applyEvents]
        have hf : finalState s (t :: ts) = finalState s ts := by
          simp [finalState, hc]
        rw [hrun, hf]
        exact ih s p c
      · have hd : decide (t > TEMPERATURE_THRESHOLD) = !s := by
          cases s <;> simp_all
        have hc : control_relay_based_on_temperature s t =
            (!s, if t > TEMPERATURE_THRESHOLD then onCommand else offCommand) := by
          rw [control_step_shape, hd]
          cases s <;> simp
        have happ : applyEvents p c
            (if t > TEMPERATURE_THRESHOLD then onCommand else offCommand) = (!p, c + 1) := by
          by_cases h : t > TEMPERATURE_THRESHOLD <;>
            simp [h, onCommand, offCommand, applyEvents, blink_led]
        have hrun : runPhysical s p c (t :: ts) = runPhysical (!s) (!p) (c + 1) ts := by
          simp [runPhysical, hc, happ]
        have hf : finalState s (t :: ts) = finalState (!s) ts := by
          simp [finalState, hc]
        rw [hrun, hf]
        obtain ⟨ih1, ih2, ih3⟩ := ih (!s) (!p) (c + 1)
        refine ⟨ih1, ?_, ?_⟩
        · rw [ih2]
          cases p <;> cases s <;> simp
        · rw [ih3]
          have hx : xor (!s) (finalState (!s) ts) = !(xor s (finalState (!s) ts)) := by
            cases s <;> simp
          rw [hx]
          cases hsf : xor s (finalState (!s) ts) <;> simp <;> omega

theorem round_half_even_intCast (n : ℤ) : round_half_even (n : ℚ) = n := by
  simp [round_half_even]

theorem pyRound1_idem (x : ℚ) : pyRound1 (pyRound1 x) = pyRound1 x := by
  unfold pyRound1
  rw [div_mul_cancel₀ _ (by norm_num : (10 : ℚ) ≠ 0), round_half_even_intCast]

/-! ### Claim theorems -/

/-- C1: over any stream of successful readings processed from the initial
`Idle` flag, an ON command is issued on cycle `i` exactly when the flag going
into the cycle is off (temperature was at or below the threshold, or nothing
read yet) and the reading exceeds the threshold; an OFF command exactly when
the flag is on and the reading is at or below the threshold; no command is
issued when no such crossing happens; and the flag after cycle `i` records
exactly whether reading `i` exceeded the threshold. -/
theorem edge_triggered_commands (ts : List ℚ) (i : ℕ) (h : i < ts.length) :
    ((runControl false ts).getD i [] = onCommand ↔
       finalState false (ts.take i) = false ∧ ts.getD i 0 > TEMPERATURE_THRESHOLD) ∧
    ((runControl false ts).getD i [] = offCommand ↔
       finalState false (ts.take i) = true ∧ ¬ts.getD i 0 > TEMPERATURE_THRESHOLD) ∧
    ((runControl false ts).getD i [] = [] ↔
       finalState false (ts.take i) = decide (ts.getD i 0 > TEMPERATURE_THRESHOLD)) ∧
    finalState false (ts.take (i + 1)) = decide (ts.getD i 0 > TEMPERATURE_THRESHOLD) := by
  rw [runControl_getD ts false i h, control_step_shape]
  refine ⟨?_, ?_, ?_, finalState_take_succ ts false i h⟩ <;>
    generalize ts.getD i 0 = x <;>
      by_cases ht : x > TEMPERATURE_THRESHOLD <;>
        cases hfs : finalState false (ts.take i) <;>
          simp [ht, hfs, onCommand, offCommand, blink_led, ON_STATE, OFF_STATE, le_of_not_lt]

/-- Witness for C1: the stream `[31]` at cycle 0 satisfies the hypothesis and
the characterization (the first reading exceeds the threshold, so an ON
command is issued). -/
theorem edge_triggered_commands_witness :
    ((runControl false [(31 : ℚ)]).getD 0 [] = onCommand ↔
       finalState false ([(31 : ℚ)].take 0) = false ∧
         [(31 : ℚ)].getD 0 0 > TEMPERATURE_THRESHOLD) ∧
    ((runControl false [(31 : ℚ)]).getD 0 [] = offCommand ↔
       finalState false ([(31 : ℚ)].take 0) = true ∧
         ¬[(31 : ℚ)].getD 0 0 > TEMPERATURE_THRESHOLD) ∧
    ((runControl false [(31 : ℚ)]).getD 0 [] = [] ↔
       finalState false ([(31 : ℚ)].take 0) =
         decide ([(31 : ℚ)].getD 0 0 > TEMPERATURE_THRESHOLD)) ∧
    finalState false ([(31 : ℚ)].take (0 + 1)) =
      decide ([(31 : ℚ)].getD 0 0 > TEMPERATURE_THRESHOLD) :=
  edge_triggered_commands [(31 : ℚ)] 0 (by decide)

/-- C2 counterexample: the program runs the startup block with the flag at its
initialised value `False` (source line 47), and then the block issues zero
actuator commands — not exactly one OFF command. -/
theorem startup_from_initial_flag_issues_no_command :
    (startup false).2 = [] ∧ (startup false).2.length ≠ 1 := by decide

/-- C2 amended: startup toggles the relay only when the tracked flag is
`True`; from the initialised flag value `False` it issues zero actuator
commands, and in all cases it leaves the flag `False`. -/
theorem startup_toggle_conditional :
    startup false = (false, []) ∧
    (∀ s : Bool, startup s = (false, if s then [Event.relayToggle] else [])) := by decide

/-- C3 counterexample: if the cancellation signal arrives while the relay
flag is off (for example right after startup, whose flag is `False`), the
`KeyboardInterrupt` handler issues zero actuator commands — not exactly
one OFF command. -/
theorem interrupt_with_relay_off_issues_no_command :
    shutdown_on_interrupt (startup false).1 = [] ∧
    (shutdown_on_interrupt (startup false).1).length ≠ 1 := by decide

/-- C3 amended: on cancellation the handler issues one OFF toggle exactly
when the relay flag is on, and no command when it is already off; it never
issues more than one command. -/
theorem interrupt_shutdown_iff_relay_on :
    (∀ s : Bool, shutdown_on_interrupt s = if s then [Event.relayToggle] else []) ∧
    (∀ s : Bool, (shutdown_on_interrupt s).length ≤ 1) := by decide

/-- C4: feeding the same reading twice in a row produces at most one actuator
command: the run on `[t, t]` issues whatever the first call issues followed by
no command, and the second call leaves the flag unchanged. -/
theorem repeated_reading_idempotent (s : Bool) (t : ℚ) :
    runControl s [t, t] = [(control_relay_based_on_temperature s t).2, []] ∧
    finalState s [t, t] = finalState s [t] := by
  have h2 : control_relay_based_on_temperature (control_relay_based_on_temperature s t).1 t
      = ((control_relay_based_on_temperature s t).1, []) := by
    rw [control_step_shape s t, control_step_shape (decide (t > TEMPERATURE_THRESHOLD)) t]
    simp
  refine ⟨?_, ?_⟩
  · simp [runControl, h2]
  · simp [finalState, h2]

/-- C5: on a cycle whose acquisition fails (`read_temperature` returns
`none`), the loop body leaves the relay flag unchanged, issues no hardware
event, and produces only the failure report. -/
theorem failed_acquisition_skips_controller (s : Bool) (r1 r2 : DhtResult)
    (h : read_temperature r1 = none) :
    main_cycle s r1 r2 = Except.ok (s, [], Report.failure) := by
  simp [main_cycle, h]

/-- Witness for C5: a sensor transaction that raises makes `read_temperature`
return `none`, and the cycle then continues with state intact and a failure
report. -/
theorem failed_acquisition_skips_controller_witness :
    read_temperature (Except.error "E") = none ∧
    main_cycle true (Except.error "E") (Except.ok (none, none)) =
      Except.ok (true, [], Report.failure) :=
  ⟨rfl, failed_acquisition_skips_controller true (Except.error "E")
    (Except.ok (none, none)) rfl⟩

/-- C6 evaluation at the failing input: when the first sensor read of a cycle
succeeds (25 °C) but the second, humidity-display read on source line 159
raises, the exception escapes the loop body instead of being handled locally,
terminating the control loop. -/
theorem second_read_exception_escapes_loop :
    main_cycle false (Except.ok (some 25, some 50)) (Except.error "Timeout") =
      Except.error "Timeout" := by
  simp [main_cycle, read_temperature]

/-- C7 evaluation at the failing input: a cycle whose first read yields a
temperature performs two `dht_sensor.read()` transactions (source lines 65
and 159), while a cycle whose first read fails performs one. -/
theorem successful_cycle_performs_two_sensor_reads :
    cycle_sensor_reads (Except.ok (some 28, some 50)) = 2 ∧
    cycle_sensor_reads (Except.error "Timeout") = 1 :=
  ⟨rfl, rfl⟩

/-- C8: on a successful cycle the temperature is rounded to one decimal once,
inside `read_temperature`; the value fed to the threshold comparison in the
controller and the value placed in the status report are both that same
rounded value, and rounding it again would not change it. -/
theorem rounding_once_at_boundary (s : Bool) (t hum h2 : ℚ) (o2 : Option ℚ) :
    read_temperature (Except.ok (some t, some hum)) = some (pyRound1 t) ∧
    main_cycle s (Except.ok (some t, some hum)) (Except.ok (o2, some h2)) =
      Except.ok ((control_relay_based_on_temperature s (pyRound1 t)).1,
        (control_relay_based_on_temperature s (pyRound1 t)).2,
        Report.status (pyRound1 t) (pyRound1 h2) TEMPERATURE_THRESHOLD
          (control_relay_based_on_temperature s (pyRound1 t)).1) ∧
    pyRound1 (pyRound1 t) = pyRound1 t :=
  ⟨rfl, rfl, pyRound1_idem t⟩

/-- C9 counterexample: from startup, the stream
`[28, 31, 31.5, 29.9, 30, 30.1]` produces the command sequence
`[ON, OFF, ON]`: three commands, not the four of the claimed
`[OFF at startup, ON, OFF, ON]`, and the first issued command is not the
claimed startup OFF toggle. -/
theorem scenario_stream_counterexample :
    issuedCommands [28, 31, 31.5, 29.9, 30, 30.1] = [onCommand, offCommand, onCommand] ∧
    (issuedCommands [28, 31, 31.5, 29.9, 30, 30.1]).length ≠ 4 ∧
    (issuedCommands [28, 31, 31.5, 29.9, 30, 30.1]).head? ≠ some [Event.relayToggle] := by
  have h : issuedCommands [28, 31, 31.5, 29.9, 30, 30.1] =
      [onCommand, offCommand, onCommand] := by
    norm_num [issuedCommands, startup, runControl, control_relay_based_on_temperature,
      TEMPERATURE_THRESHOLD, onCommand, offCommand, blink_led, List.filter]
    rfl
  refine ⟨h, ?_, ?_⟩ <;> rw [h] <;> decide

/-- C9 amended: with threshold 30.0 and the stream
`[28, 31, 31.5, 29.9, 30, 30.1]` processed from startup, startup issues no
command (the flag starts `False`), and the cycles issue exactly
`[ON at 31.0, OFF at 29.9, ON at 30.1]`; the readings 28.0, 31.5 and 30.0
issue nothing (30.0 equals the threshold and is not strictly above it). -/
theorem scenario_stream_commands :
    (startup false).2 = [] ∧
    runControl false [28, 31, 31.5, 29.9, 30, 30.1] =
      [[], onCommand, [], offCommand, [], onCommand] ∧
    issuedCommands [28, 31, 31.5, 29.9, 30, 30.1] = [onCommand, offCommand, onCommand] := by
  refine ⟨rfl, ?_, ?_⟩
  · norm_num [runControl, control_relay_based_on_temperature, TEMPERATURE_THRESHOLD,
      onCommand, offCommand, blink_led]
  · norm_num [issuedCommands, startup, runControl, control_relay_based_on_temperature,
      TEMPERATURE_THRESHOLD, onCommand, offCommand, blink_led, List.filter]
    rfl

/-- C10: if the tracked flag and the physical relay coil agree initially,
they agree after processing any stream of readings (the relay is toggled
exactly when the flag flips); starting from flag `False`, coil off and zero
toggles, the toggle count always has the parity of the flag; and if flag and
coil disagree initially, they disagree forever — every command leaves the
coil at the inverse of the intended state, since the driver uses toggle
rather than an absolute set. -/
theorem flag_tracks_physical_relay (ts : List ℚ) (s p : Bool) (c : ℕ) :
    (s = p → (runPhysical s p c ts).1 = (runPhysical s p c ts).2.1) ∧
    ((runPhysical false false 0 ts).2.2 % 2 =
      if (runPhysical false false 0 ts).1 then 1 else 0) ∧
    (s ≠ p → (runPhysical s p c ts).1 = !(runPhysical s p c ts).2.1) := by
  obtain ⟨h1, h2, h3⟩ := runPhysical_spec ts s p c
  obtain ⟨g1, g2, g3⟩ := runPhysical_spec ts false false 0
  refine ⟨?_, ?_, ?_⟩
  · intro hsp
    subst hsp
    rw [h1, h2]
    cases s <;> simp
  · rw [g3, g1]
    cases finalState false ts <;> simp
  · intro hsp
    have hp : p = !s := by cases s <;> cases p <;> simp_all
    subst hp
    rw [h1, h2]
    cases s <;> simp

/-- Witness for C10: on the stream `[31]`, agreeing initial states stay in
agreement, and disagreeing initial states stay inverted. -/
theorem flag_tracks_physical_relay_witness :
    ((runPhysical false false 0 [(31 : ℚ)]).1 =
      (runPhysical false false 0 [(31 : ℚ)]).2.1) ∧
    ((runPhysical true false 0 [(31 : ℚ)]).1 =
      !(runPhysical true false 0 [(31 : ℚ)]).2.1) :=
  ⟨(flag_tracks_physical_relay [(31 : ℚ)] false false 0).1 rfl,
   (flag_tracks_physical_relay [(31 : ℚ)] true false 0).2.2 (by simp)⟩

end TemperatureControl
